import Mathlib

/-!
Verification of the evo2-backend cache/proxy core.

Shallow embedding of the repository's Python sources:
  - cache_manager.py : InMemoryCache, RedisCacheManager, generate_cache_key
  - proxy_apis.py    : ProxyAPIs.proxy_ncbi_endpoint / proxy_ucsc_endpoint /
                       proxy_modal_endpoint
  - api_server.py    : the /proxy/modal handler with its inline rate limiter
  - cached_apis.py   : CachedGenomeAPIs.get_clinvar_variants (cache guard)

Conventions of the embedding:
  - Python JSON-serializable documents are the inductive JsonVal; Python
    truthiness of such a document is JsonVal.truthy.
  - Wall-clock time is a Nat (seconds); sleeps are recorded in milliseconds
    instead of being performed.
  - The remote Redis store is a key -> (value, expiresAt) association list
    carried in a World; json.dumps/json.loads round-tripping is modelled as
    the identity on JsonVal (dumps never yields a falsy string, so the
    `if value:` nil-check in RedisCacheManager.get is exactly the
    present/absent check modelled here).
  - A remote call can raise at any moment; each manager operation therefore
    takes CallFlags saying whether the connectivity ping succeeds and
    whether the remote operation itself raises, mirroring the try/except
    structure of the source.
  - Network I/O of the proxies is an oracle `up : Nat -> Fetch` giving the
    response to the i-th HTTP request of the call; urlparse(endpoint).hostname
    is modelled as a field of the Endpoint structure.
-/

/-- A JSON-serializable Python document. -/
inductive JsonVal where
  | str (s : String)
  | num (n : Int)
  | boolv (b : Bool)
  | null
  | arr (xs : List JsonVal)
  | obj (fields : List (String × JsonVal))
deriving Repr

/-- Python truthiness of a JSON document (`if cached_data:` etc.):
empty string/list/dict, 0, False and None are falsy. -/
def JsonVal.truthy : JsonVal → Bool
  | .str s => !s.isEmpty
  | .num n => n != 0
  | .boolv b => b
  | .null => false
  | .arr xs => !xs.isEmpty
  | .obj fs => !fs.isEmpty

/-- An argument of generate_cache_key: the source annotates params as
Union[str, int], and None also flows in from dict .get defaults; every
param is passed through str(). -/
inductive Param where
  | s (v : String)
  | i (n : Int)
  | pynone
deriving DecidableEq, Repr

/-- Python str() of a param. -/
def Param.toStr : Param → String
  | .s v => v
  | .i n => toString n
  | .pynone => "None"

/-- The source's `':'.join(strs)` (cache_manager.py line 394). -/
def joinColon : List String → String
  | [] => ""
  | [s] => s
  | s :: t :: rest => s ++ ":" ++ joinColon (t :: rest)

/-- cache_manager.generate_cache_key:
`f"evo2:{prefix}:{':'.join(str(p) for p in params)}"`. -/
def generate_cache_key (pre : String) (params : List Param) : String :=
  "evo2:" ++ pre ++ ":" ++ joinColon (params.map Param.toStr)

/-- `needle` is a leading segment of `hay` (character lists). -/
def strLeads : List Char → List Char → Bool
  | [], _ => true
  | _ :: _, [] => false
  | a :: as, b :: bs => a = b && strLeads as bs

/-- Python's `needle in hay` substring test, on character lists. -/
def strHas (needle : List Char) : List Char → Bool
  | [] => needle.isEmpty
  | c :: t => strLeads needle (c :: t) || strHas needle t

/-- Python's `needle in hay` on strings. -/
def strContains (hay needle : String) : Bool :=
  strHas needle.data hay.data

/-- `pattern.replace('*', '')` (InMemoryCache.clear_pattern line 46). -/
def deWild (p : String) : String :=
  ⟨p.data.filter (fun c => c ≠ '*')⟩

/-- Redis glob matching, used by the modelled remote KEYS command.
'*' matches any character sequence; other characters match literally. -/
def globMatch : List Char → List Char → Bool
  | [], [] => true
  | [], _ :: _ => false
  | '*' :: ps, [] => globMatch ps []
  | '*' :: ps, c :: cs => globMatch ps (c :: cs) || globMatch ('*' :: ps) cs
  | _ :: _, [] => false
  | p :: ps, c :: cs => p = c && globMatch ps cs
termination_by ps cs => ps.length + cs.length

/-- A cache table: key -> (document, expiresAt in seconds), insertion-ordered
like a Python dict (operations keep keys unique). -/
abbrev CacheTable : Type := List (String × JsonVal × Nat)

/-- Dict lookup. -/
def tblLookup (c : CacheTable) (k : String) : Option (JsonVal × Nat) :=
  match c with
  | [] => none
  | (k', e) :: rest => if k' = k then some e else tblLookup rest k

/-- Dict assignment `d[k] = e`: replace in place, else append. -/
def tblSet (c : CacheTable) (k : String) (e : JsonVal × Nat) : CacheTable :=
  match c with
  | [] => [(k, e)]
  | (k', e') :: rest =>
      if k' = k then (k, e) :: rest else (k', e') :: tblSet rest k e

/-- Dict deletion `del d[k]` (no-op when the key is absent). -/
def tblDel (c : CacheTable) (k : String) : CacheTable :=
  c.filter (fun kv => kv.1 ≠ k)

/-- InMemoryCache.get (cache_manager.py lines 20-28): return the value when
present and unexpired; lazily delete an expired entry. -/
def imGet (c : CacheTable) (k : String) (now : Nat) : Option JsonVal × CacheTable :=
  match tblLookup c k with
  | some (v, expiry) => if now < expiry then (some v, c) else (none, tblDel c k)
  | none => (none, c)

/-- InMemoryCache.set (lines 30-34): store (value, now + ttl), return True. -/
def imSet (c : CacheTable) (k : String) (v : JsonVal) (ttl now : Nat) :
    Bool × CacheTable :=
  (true, tblSet c k (v, now + ttl))

/-- InMemoryCache.delete (lines 36-41): existed-and-removed. -/
def imDelete (c : CacheTable) (k : String) : Bool × CacheTable :=
  match tblLookup c k with
  | some _ => (true, tblDel c k)
  | none => (false, c)

/-- InMemoryCache.clear_pattern (lines 43-49): delete every key containing
the de-wildcarded pattern as a substring; return how many were deleted. -/
def imClearPattern (c : CacheTable) (pat : String) : Nat × CacheTable :=
  let needle := deWild pat
  let doomed := c.filter (fun kv => strContains kv.1 needle)
  (doomed.length, c.filter (fun kv => !strContains kv.1 needle))

/-- Whether a remote-cache call's connectivity probe succeeds and whether the
remote operation itself raises; supplied per call since the connection can
drop at any moment. -/
structure CallFlags where
  pingOk : Bool
  opRaises : Bool
deriving Repr, DecidableEq

/-- The process-wide state of the Cache Store: the remote Redis contents,
the latched RedisCacheManager._use_fallback flag, and the InMemoryCache
fallback table. -/
structure World where
  remote : CacheTable
  useFallback : Bool
  fallback : CacheTable
deriving Repr

/-- The remote GET (redis_client.get followed by json.loads): a present,
unexpired entry deserializes back to its document; Redis self-expires
entries past their TTL. -/
def remoteGet (store : CacheTable) (k : String) (now : Nat) : Option JsonVal :=
  match tblLookup store k with
  | some (v, expiry) => if now < expiry then some v else none
  | none => none

/-- Whether the remote store holds a live (unexpired) entry for k. -/
def remoteHas (store : CacheTable) (k : String) (now : Nat) : Bool :=
  (remoteGet store k now).isSome

/-- RedisCacheManager.get (cache_manager.py lines 195-208). -/
def mgrGet (f : CallFlags) (now : Nat) (w : World) (k : String) :
    Option JsonVal × World :=
  if f.pingOk && !w.useFallback then
    if f.opRaises then
      -- the remote get raised: latch the flag, then serve from the fallback
      let w1 : World := { w with useFallback := true }
      let g := imGet w1.fallback k now
      (g.1, { w1 with fallback := g.2 })
    else
      (remoteGet w.remote k now, w)
  else
    let g := imGet w.fallback k now
    (g.1, { w with fallback := g.2 })

/-- RedisCacheManager.set (lines 210-221): SETEX on the remote, else the
fallback; latches the flag when the remote set raises. -/
def mgrSet (f : CallFlags) (now : Nat) (w : World) (k : String) (v : JsonVal)
    (ttl : Nat) : Bool × World :=
  if f.pingOk && !w.useFallback then
    if f.opRaises then
      let w1 : World := { w with useFallback := true }
      let g := imSet w1.fallback k v ttl now
      (g.1, { w1 with fallback := g.2 })
    else
      (true, { w with remote := tblSet w.remote k (v, now + ttl) })
  else
    let g := imSet w.fallback k v ttl now
    (g.1, { w with fallback := g.2 })

/-- RedisCacheManager.delete (lines 223-232): consults only is_connected()
(not the flag), returns False when disconnected or on a raise, and never
touches the fallback table nor sets the flag. -/
def mgrDelete (f : CallFlags) (now : Nat) (w : World) (k : String) :
    Bool × World :=
  if !f.pingOk then
    (false, w)
  else if f.opRaises then
    (false, w)
  else
    (remoteHas w.remote k now,
     { w with remote := w.remote.filter (fun kv => kv.1 ≠ k) })

/-- RedisCacheManager.clear_pattern (lines 234-247): remote KEYS + DEL, else
the fallback's substring clear; latches the flag when the remote raises. -/
def mgrClearPattern (f : CallFlags) (now : Nat) (w : World) (pat : String) :
    Nat × World :=
  if f.pingOk && !w.useFallback then
    if f.opRaises then
      let w1 : World := { w with useFallback := true }
      let g := imClearPattern w1.fallback pat
      (g.1, { w1 with fallback := g.2 })
    else
      let doomed := w.remote.filter
        (fun kv => remoteHas w.remote kv.1 now && globMatch pat.data kv.1.data)
      let kept := w.remote.filter
        (fun kv => !(remoteHas w.remote kv.1 now && globMatch pat.data kv.1.data))
      (doomed.length, { w with remote := kept })
  else
    let g := imClearPattern w.fallback pat
    (g.1, { w with fallback := g.2 })

/-- One logical Cache Store operation, for statements quantifying over
arbitrary operation sequences. -/
inductive CacheOp where
  | opGet (k : String)
  | opSet (k : String) (v : JsonVal) (ttl : Nat)
  | opDel (k : String)
  | opClear (pat : String)

/-- The World after one Cache Store operation. -/
def mgrStep (f : CallFlags) (now : Nat) (w : World) : CacheOp → World
  | .opGet k => (mgrGet f now w k).2
  | .opSet k v ttl => (mgrSet f now w k v ttl).2
  | .opDel k => (mgrDelete f now w k).2
  | .opClear pat => (mgrClearPattern f now w pat).2

/-- The World after a sequence of Cache Store operations, each with its own
flags and timestamp. -/
def mgrRun (w : World) : List (CallFlags × Nat × CacheOp) → World
  | [] => w
  | (f, now, op) :: rest => mgrRun (mgrStep f now w op) rest

/-- An upstream HTTP response as the proxies consume it: status code, reason
phrase, a parsed integer Retry-After header when present, whether the
content-type declares JSON (equivalently, for UCSC, whether response.json()
succeeds), the parsed JSON body, and the raw text body. -/
structure Resp where
  status : Nat
  reason : String
  retryAfter : Option Nat
  ctJson : Bool
  jsonData : JsonVal
  text : String
deriving Repr

/-- Outcome of one requests.get/requests.post: a response, or a raised
network-level exception (connection error, timeout) with its message. -/
inductive Fetch where
  | resp (r : Resp)
  | exn (msg : String)
deriving Repr

/-- requests' Response.ok is False exactly when raise_for_status would
raise, i.e. for statuses 400-599. -/
def respNotOk (s : Nat) : Bool :=
  400 ≤ s && s < 600

/-- A proxy endpoint argument: the raw URL string and
urlparse(endpoint).hostname (None when the URL has no host). -/
structure Endpoint where
  url : String
  hostname : Option String
deriving Repr, DecidableEq

/-- The dynamic return shape of the proxy coroutines: either a bare document
(`return data`) or a (document, status_code) tuple. -/
inductive ProxyRet where
  | dataOnly (d : JsonVal)
  | withStatus (e : JsonVal) (code : Nat)
deriving Repr

/-- A `{'error': ..., 'details': ...}` response body. -/
def errObj (e d : String) : JsonVal :=
  .obj [("error", .str e), ("details", .str d)]

/-- Instrumented result of one proxy call: the returned value, the Cache
Store state after the call, the number of upstream HTTP requests issued,
the log of get_cached_data keys, the log of set_cached_data
(key, document, ttl) calls, and the backoff sleeps in milliseconds. -/
structure RunOut where
  ret : ProxyRet
  w : World
  calls : Nat
  reads : List String
  writes : List (String × JsonVal × Nat)
  sleeps : List Nat
deriving Repr

/-- The `for i in range(3)` forward-with-retry loop, shared verbatim between
proxy_ncbi_endpoint (lines 45-93, label "NCBI", ttl 300) and
proxy_modal_endpoint (lines 190-239, label "Modal", ttl 1800) of
proxy_apis.py. Arguments after the key: attempt index i, remaining
iterations, last_error, world, and the calls/sleeps accumulators. -/
def retryLoop (label : String) (ttl : Nat) (up : Nat → Fetch) (fs : CallFlags)
    (now : Nat) (key : String) :
    Nat → Nat → Option String → World → Nat → List Nat → RunOut
  | _, 0, lastErr, w, calls, sleeps =>
      { ret := .withStatus (errObj "Internal server error after multiple retries"
                 (lastErr.getD "Unknown error")) 500,
        w := w, calls := calls, reads := [], writes := [], sleeps := sleeps }
  | i, fuel + 1, _lastErr, w, calls, sleeps =>
      match up i with
      | .exn msg =>
          -- requests raised: caught, sleep (i+1)*1 seconds, retry
          retryLoop label ttl up fs now key (i + 1) fuel (some msg) w
            (calls + 1) (sleeps ++ [(i + 1) * 1000])
      | .resp r =>
          if r.status = 429 then
            let wait := match r.retryAfter with
              | some ra => ra * 1000
              | none => (i + 1) * 2000
            retryLoop label ttl up fs now key (i + 1) fuel (some "Rate limit hit") w
              (calls + 1) (sleeps ++ [wait])
          else if respNotOk r.status then
            if r.status < 500 then
              { ret := .withStatus (errObj
                  (label ++ " API Client Error: " ++ toString r.status ++ " " ++ r.reason)
                  r.text) r.status,
                w := w, calls := calls + 1, reads := [], writes := [],
                sleeps := sleeps }
            else
              -- raise Exception(f'... API Server Error: ...'): caught,
              -- sleep (i+1)*1 seconds, retry
              retryLoop label ttl up fs now key (i + 1) fuel
                (some (label ++ " API Server Error: " ++ toString r.status ++ " "
                  ++ r.reason ++ " - " ++ r.text)) w
                (calls + 1) (sleeps ++ [(i + 1) * 1000])
          else
            let d := if r.ctJson then r.jsonData else .str r.text
            let w2 := (mgrSet fs now w key d ttl).2
            { ret := .dataOnly d, w := w2, calls := calls + 1, reads := [],
              writes := [(key, d, ttl)], sleeps := sleeps }

/-- The fixed NCBI allow-list (proxy_apis.py lines 28-31). -/
def ncbiAllowedHosts : List String :=
  ["eutils.ncbi.nlm.nih.gov", "clinicaltables.nlm.nih.gov"]

/-- `url_object.hostname not in allowed_hosts`, negated: a None hostname is
never a member. -/
def hostAllowed (ep : Endpoint) (hosts : List String) : Bool :=
  match ep.hostname with
  | some h => hosts.contains h
  | none => false

/-- ProxyAPIs.proxy_ncbi_endpoint (proxy_apis.py lines 23-97): validate the
host, consult the cache (Python-truthily), then forward with retries; the
ValueError of a disallowed host is swallowed by the outer except into a
generic 500 before any cache or network interaction. -/
def proxy_ncbi_endpoint (up : Nat → Fetch) (fg fs : CallFlags) (now : Nat)
    (w : World) (ep : Endpoint) : RunOut :=
  if !hostAllowed ep ncbiAllowedHosts then
    { ret := .withStatus (JsonVal.obj [("error", .str "Internal server error")]) 500,
      w := w, calls := 0, reads := [], writes := [], sleeps := [] }
  else
    let key := generate_cache_key "ncbi_proxy" [.s ep.url]
    let cached := (mgrGet fg now w key).1
    let w1 := (mgrGet fg now w key).2
    let missRun : RunOut :=
      let out := retryLoop "NCBI" 300 up fs now key 0 3 none w1 0 []
      { out with reads := [key] }
    match cached with
    | some v =>
        if v.truthy then
          { ret := .dataOnly v, w := w1, calls := 0, reads := [key],
            writes := [], sleeps := [] }
        else missRun
    | none => missRun

/-- ProxyAPIs.proxy_ucsc_endpoint (proxy_apis.py lines 99-152): validate the
single allowed host, consult the cache, then forward exactly once; a non-ok
status is returned as a structured error without retrying, and a raised
fetch (or a body that fails response.json()) yields 502 Bad Gateway. -/
def proxy_ucsc_endpoint (up : Nat → Fetch) (fg fs : CallFlags) (now : Nat)
    (w : World) (ep : Endpoint) : RunOut :=
  if ep.hostname ≠ some "api.genome.ucsc.edu" then
    { ret := .withStatus (JsonVal.obj [("error", .str "Internal Server Error")]) 500,
      w := w, calls := 0, reads := [], writes := [], sleeps := [] }
  else
    let key := generate_cache_key "ucsc_proxy" [.s ep.url]
    let cached := (mgrGet fg now w key).1
    let w1 := (mgrGet fg now w key).2
    let missRun : RunOut :=
      match up 0 with
      | .exn _ =>
          { ret := .withStatus
              (JsonVal.obj [("error", .str "Bad Gateway: The UCSC API is not reachable.")]) 502,
            w := w1, calls := 1, reads := [key], writes := [], sleeps := [] }
      | .resp r =>
          if respNotOk r.status then
            { ret := .withStatus (errObj
                ("UCSC API Error: " ++ toString r.status ++ " " ++ r.reason)
                r.text) r.status,
              w := w1, calls := 1, reads := [key], writes := [], sleeps := [] }
          else if r.ctJson then
            let w2 := (mgrSet fs now w1 key r.jsonData 3600).2
            { ret := .dataOnly r.jsonData, w := w2, calls := 1, reads := [key],
              writes := [(key, r.jsonData, 3600)], sleeps := [] }
          else
            -- response.json() raised: caught by the fetch except clause
            { ret := .withStatus
                (JsonVal.obj [("error", .str "Bad Gateway: The UCSC API is not reachable.")]) 502,
              w := w1, calls := 1, reads := [key], writes := [], sleeps := [] }
    match cached with
    | some v =>
        if v.truthy then
          { ret := .dataOnly v, w := w1, calls := 0, reads := [key],
            writes := [], sleeps := [] }
        else missRun
    | none => missRun

/-- The request body of the Modal proxy: each field is absent (dict key
missing) or holds a Python value; request_body.get stringifies a present
None as "None". -/
structure ModalBody where
  variant_pos : Option Param
  alternative : Option Param
  genome : Option Param
  chromosome : Option Param
  strand : Option Param
deriving Repr

/-- The Modal variant-analysis cache key (proxy_apis.py line 172):
generate_cache_key('variant_analysis', chromosome, variant_pos,
alternative, genome, strand) with request_body.get defaults. -/
def modalCacheKey (b : ModalBody) : String :=
  generate_cache_key "variant_analysis"
    [b.chromosome.getD .pynone, b.variant_pos.getD .pynone,
     b.alternative.getD .pynone, b.genome.getD .pynone,
     b.strand.getD (.s "+")]

/-- ProxyAPIs.proxy_modal_endpoint (proxy_apis.py lines 154-243): require
the configured base URL, consult the cache, then forward with retries
(the same loop as NCBI, ttl 1800). -/
def proxy_modal_endpoint (up : Nat → Fetch) (fg fs : CallFlags)
    (modalEndpoint : Option String) (now : Nat) (w : World) (b : ModalBody) :
    RunOut :=
  match modalEndpoint with
  | none =>
      { ret := .withStatus (JsonVal.obj [("error", .str "Modal endpoint not configured")]) 500,
        w := w, calls := 0, reads := [], writes := [], sleeps := [] }
  | some _ =>
      let key := modalCacheKey b
      let cached := (mgrGet fg now w key).1
      let w1 := (mgrGet fg now w key).2
      let missRun : RunOut :=
        let out := retryLoop "Modal" 1800 up fs now key 0 3 none w1 0 []
        { out with reads := [key] }
      match cached with
      | some v =>
          if v.truthy then
            { ret := .dataOnly v, w := w1, calls := 0, reads := [key],
              writes := [], sleeps := [] }
          else missRun
      | none => missRun

/-- The per-client request-timestamp table `modal_rate_limit`
(api_server.py line 575). -/
abbrev RLTable := List (String × List Nat)

/-- `modal_rate_limit.get(ip, [])`. -/
def rlLookup (t : RLTable) (ip : String) : List Nat :=
  match t with
  | [] => []
  | (ip', ts) :: rest => if ip' = ip then ts else rlLookup rest ip

/-- `modal_rate_limit[ip] = ts`. -/
def rlStore (t : RLTable) (ip : String) (ts : List Nat) : RLTable :=
  match t with
  | [] => [(ip, ts)]
  | (ip', ts') :: rest =>
      if ip' = ip then (ip, ts) :: rest else (ip', ts') :: rlStore rest ip ts

/-- MODAL_RATE_LIMIT_REQUESTS (api_server.py line 576). -/
def MODAL_RATE_LIMIT_REQUESTS : Nat := 10

/-- MODAL_RATE_LIMIT_WINDOW in seconds (api_server.py line 577). -/
def MODAL_RATE_LIMIT_WINDOW : Nat := 60

/-- The timestamp-pruning comprehension (api_server.py lines 588-591): keep
timestamps with current_time - timestamp < MODAL_RATE_LIMIT_WINDOW. -/
def pruneTimestamps (now : Nat) (ts : List Nat) : List Nat :=
  ts.filter (fun t => now - t < MODAL_RATE_LIMIT_WINDOW)

/-- The rate-limiting prologue of the /proxy/modal handler (api_server.py
lines 584-604): prune and store the client's window, admit (appending the
timestamp) iff the pruned count is below the limit. -/
def rateLimitCheck (t : RLTable) (ip : String) (now : Nat) : Bool × RLTable :=
  let pruned := pruneTimestamps now (rlLookup t ip)
  let t1 := rlStore t ip pruned
  if MODAL_RATE_LIMIT_REQUESTS ≤ pruned.length then
    (false, t1)
  else
    (true, rlStore t1 ip (pruned ++ [now]))

/-- What the routing layer hands back to the HTTP client: a JSONResponse
document, or an HTTPException's status and detail. -/
inductive HandlerOutcome where
  | okJson (d : JsonVal)
  | httpError (status : Nat) (detail : String)
deriving Repr

/-- Instrumented result of one /proxy/modal handler invocation. -/
structure HandlerOut where
  outcome : HandlerOutcome
  rl : RLTable
  w : World
  calls : Nat
  reads : List String
  writes : List (String × JsonVal × Nat)
deriving Repr

/-- The /proxy/modal handler (api_server.py lines 579-632). The whole body
sits in one try block whose `except Exception` re-raises every failure -
including the handler's own HTTPException(429) and the non-200 proxy
tuples - as HTTPException(500, "Failed to proxy Modal request"). -/
def proxy_modal_handler (up : Nat → Fetch) (fg fs : CallFlags)
    (modalEndpoint : Option String) (rl : RLTable) (ip : String) (now : Nat)
    (w : World) (b : ModalBody) : HandlerOut :=
  let allowed := (rateLimitCheck rl ip now).1
  let rl1 := (rateLimitCheck rl ip now).2
  if !allowed then
    -- raise HTTPException(429, "Rate limit exceeded. ...") is caught by the
    -- handler's own except clause and surfaced as a generic 500
    { outcome := .httpError 500 "Failed to proxy Modal request",
      rl := rl1, w := w, calls := 0, reads := [], writes := [] }
  else
    let out := proxy_modal_endpoint up fg fs modalEndpoint now w b
    match out.ret with
    | .dataOnly d =>
        { outcome := .okJson d, rl := rl1, w := out.w, calls := out.calls,
          reads := out.reads, writes := out.writes }
    | .withStatus e code =>
        if code = 200 then
          { outcome := .okJson e, rl := rl1, w := out.w, calls := out.calls,
            reads := out.reads, writes := out.writes }
        else
          -- raise HTTPException(code, ...), again caught and re-raised as 500
          { outcome := .httpError 500 "Failed to proxy Modal request",
            rl := rl1, w := out.w, calls := out.calls,
            reads := out.reads, writes := out.writes }

/-- Instrumented result of a get_clinvar_variants call. -/
structure ClinvarOut where
  result : JsonVal
  w : World
  wentUpstream : Bool
  writes : List (String × JsonVal × Nat)
deriving Repr

/-- CACHE_CONFIG CLINVAR_TTL (cache_manager.py line 318). -/
def CLINVAR_TTL : Nat := 30 * 60

/-- CachedGenomeAPIs.get_clinvar_variants (cached_apis.py lines 360-517).
The NCBI search strategies and per-variant response shaping (lines 371-505)
are abstracted by `fetched`, the list of shaped variant documents the
strategy loop produced; the cache guard (lines 364-370), the empty-result
write-back (lines 500-507) and the write-through (lines 509-513) are
modelled from the source. -/
def get_clinvar_variants (fetched : List JsonVal) (fg fs : CallFlags)
    (now : Nat) (w : World) (chrom : String) (bmin bmax : Int)
    (genome : String) : ClinvarOut :=
  let key := generate_cache_key "clinvar"
    [.s chrom, .s (toString bmin ++ "-" ++ toString bmax), .s genome]
  let cached := (mgrGet fg now w key).1
  let w1 := (mgrGet fg now w key).2
  let missRun : ClinvarOut :=
    if fetched.isEmpty then
      let w2 := (mgrSet fs now w1 key (.arr []) CLINVAR_TTL).2
      { result := .arr [], w := w2, wentUpstream := true,
        writes := [(key, .arr [], CLINVAR_TTL)] }
    else
      let w2 := (mgrSet fs now w1 key (.arr fetched) CLINVAR_TTL).2
      { result := .arr fetched, w := w2, wentUpstream := true,
        writes := [(key, .arr fetched, CLINVAR_TTL)] }
  match cached with
  | some v =>
      if v.truthy then
        { result := v, w := w1, wentUpstream := false, writes := [] }
      else missRun
  | none => missRun

/-- `if cached_data:` on an Optional document: None and falsy documents
both fail the guard. -/
def truthyOpt : Option JsonVal → Bool
  | some v => v.truthy
  | none => false

/-- Run a sequence of (client, time) rate-limiter checks, collecting the
admission decisions. -/
def rlRun (t : RLTable) : List (String × Nat) → List Bool × RLTable
  | [] => ([], t)
  | (ip, now) :: rest =>
      let (b, t1) := rateLimitCheck t ip now
      let (bs, t2) := rlRun t1 rest
      (b :: bs, t2)

/-- The message of the exception recorded as last_error by a retried loop
iteration: the network exception's message, or the synthesized
"... API Server Error" message. -/
def retryMsg (label : String) (f : Fetch) : String :=
  match f with
  | .exn msg => msg
  | .resp r => label ++ " API Server Error: " ++ toString r.status ++ " "
      ++ r.reason ++ " - " ++ r.text

/-- A response outcome the retry loop retries on: a raised request or a
5xx status (the claims' "5xx or network-level failure"). -/
def retryableB : Fetch → Bool
  | .exn _ => true
  | .resp r => 500 ≤ r.status && r.status < 600

/- ------------------------------------------------------------------ -/
/- Helper lemmas                                                      -/
/- ------------------------------------------------------------------ -/

theorem strCancelRight {a b c : String} (h : a ++ c = b ++ c) : a = b := by
  apply String.ext
  have h2 := congrArg String.data h
  rw [String.data_append, String.data_append] at h2
  exact List.append_cancel_right h2

theorem strCancelLeft {a b c : String} (h : a ++ b = a ++ c) : b = c := by
  apply String.ext
  have h2 := congrArg String.data h
  rw [String.data_append, String.data_append] at h2
  exact List.append_cancel_left h2

theorem joinColon_cons_ne (x : String) (l : List String) (h : l ≠ []) :
    joinColon (x :: l) = x ++ ":" ++ joinColon l := by
  cases l with
  | nil => exact absurd rfl h
  | cons y ys => rfl

theorem joinColon_inj (xs : List String) (s t : String) (ys : List String)
    (h : joinColon (xs ++ s :: ys) = joinColon (xs ++ t :: ys)) : s = t := by
  induction xs with
  | nil =>
      cases ys with
      | nil => simpa [joinColon] using h
      | cons y ys' =>
          simp only [List.nil_append, joinColon] at h
          exact strCancelRight (strCancelRight h)
  | cons x xs' ih =>
      rw [List.cons_append, List.cons_append,
        joinColon_cons_ne x _ (by simp), joinColon_cons_ne x _ (by simp)] at h
      exact ih (strCancelLeft h)

theorem strLeads_self_append (n r : List Char) : strLeads n (n ++ r) = true := by
  induction n with
  | nil => rfl
  | cons a as ih => simp [strLeads, ih]

theorem strHas_of_leads {n h : List Char} (hl : strLeads n h = true) :
    strHas n h = true := by
  cases h with
  | nil => cases n with
    | nil => rfl
    | cons a as => simp [strLeads] at hl
  | cons c t => simp [strHas, hl]

theorem strContains_append_left (a b : String) : strContains (a ++ b) a = true := by
  unfold strContains
  rw [String.data_append]
  exact strHas_of_leads (strLeads_self_append a.data b.data)

theorem tblLookup_filterKeys (p : String → Bool) (c : CacheTable) (k : String) :
    tblLookup (c.filter (fun kv => p kv.1)) k =
      if p k then tblLookup c k else none := by
  induction c with
  | nil => simp [tblLookup]
  | cons kv rest ih =>
      by_cases hk : kv.1 = k
      · subst hk
        by_cases hp : p kv.1
        · simp [List.filter, hp, tblLookup, ih]
        · simp [List.filter, hp, tblLookup, ih]
      · by_cases hp : p kv.1
        · simp [List.filter, hp, tblLookup, hk, ih]
        · simp [List.filter, hp, tblLookup, hk, ih]

theorem tblLookup_tblSet_self (c : CacheTable) (k : String) (e : JsonVal × Nat) :
    tblLookup (tblSet c k e) k = some e := by
  induction c with
  | nil => simp [tblSet, tblLookup]
  | cons kv rest ih =>
      by_cases hk : kv.1 = k
      · simp [tblSet, hk, tblLookup]
      · cases kv with
        | mk k' e' =>
            simp only at hk
            simp [tblSet, hk, tblLookup, ih]

/- ------------------------------------------------------------------ -/
/- C4 - Key Scheme determinism and separation                         -/
/- ------------------------------------------------------------------ -/

/-- C4 counterexample: generate_cache_key accepts Union[str, int] params and
stringifies them, so the two calls generate_cache_key('gene_details', 672)
and generate_cache_key('gene_details', "672") have the same category, the
same number of parameters, and differ in exactly one parameter (an int
versus its decimal string), yet produce byte-identical keys - refuting
"any two calls ... that differ in exactly one parameter yield different
keys" as stated. -/
theorem C4_int_str_param_collision :
    Param.i 672 ≠ Param.s "672" ∧
    generate_cache_key "gene_details" [Param.i 672] =
      generate_cache_key "gene_details" [Param.s "672"] :=
  ⟨by decide, rfl⟩

/-- C4 (amended): generate_cache_key is a pure total function (identical
inputs yield identical keys), and two calls with the same category and the
same number of parameters that differ in exactly one parameter whose
stringified forms differ produce different keys. -/
theorem C4_buildKey_deterministic_and_separating :
    (∀ (c : String) (ps : List Param),
      generate_cache_key c ps = generate_cache_key c ps) ∧
    (∀ (c : String) (a b : List Param) (p q : Param),
      Param.toStr p ≠ Param.toStr q →
      generate_cache_key c (a ++ p :: b) ≠ generate_cache_key c (a ++ q :: b)) := by
  refine ⟨fun c ps => rfl, fun c a b p q hpq heq => hpq ?_⟩
  unfold generate_cache_key at heq
  have h1 := strCancelLeft heq
  rw [List.map_append, List.map_append, List.map_cons, List.map_cons] at h1
  exact joinColon_inj (a.map Param.toStr) _ _ (b.map Param.toStr) h1

/-- C4 witness: the separation theorem applied at the concrete gene_search
keys for BRCA1 versus TP53. -/
theorem C4_buildKey_separating_witness :
    Param.toStr (Param.s "BRCA1") ≠ Param.toStr (Param.s "TP53") ∧
    generate_cache_key "gene_search" [Param.s "BRCA1", Param.s "hg38"] ≠
      generate_cache_key "gene_search" [Param.s "TP53", Param.s "hg38"] :=
  ⟨by decide,
   C4_buildKey_deterministic_and_separating.2 "gene_search" []
     [Param.s "hg38"] (Param.s "BRCA1") (Param.s "TP53") (by decide)⟩

/- ------------------------------------------------------------------ -/
/- C9 - clearByPattern on the in-memory fallback                      -/
/- ------------------------------------------------------------------ -/

/-- C9 counterexample: clear_pattern("evo2:gene_search:*") does substring
matching on "evo2:gene_search:", so a stored ncbi_proxy-category key whose
embedded endpoint URL contains that substring is removed as well (and is
counted), refuting "for every stored key of any other category ... the
entry is left intact". Both keys below are built by generate_cache_key,
and the proxy key's hostname is on the NCBI allow-list. -/
theorem C9_proxy_key_collateral_removal :
    (imClearPattern
      [(generate_cache_key "gene_search" [Param.s "BRCA1", Param.s "hg38"],
        JsonVal.arr [JsonVal.str "g"], 100),
       (generate_cache_key "ncbi_proxy"
          [Param.s "https://eutils.ncbi.nlm.nih.gov/entrez/eutils/esearch.fcgi?term=evo2:gene_search:BRCA1:hg38"],
        JsonVal.str "p", 100)]
      "evo2:gene_search:*").1 = 2 ∧
    tblLookup
      (imClearPattern
        [(generate_cache_key "gene_search" [Param.s "BRCA1", Param.s "hg38"],
          JsonVal.arr [JsonVal.str "g"], 100),
         (generate_cache_key "ncbi_proxy"
            [Param.s "https://eutils.ncbi.nlm.nih.gov/entrez/eutils/esearch.fcgi?term=evo2:gene_search:BRCA1:hg38"],
          JsonVal.str "p", 100)]
        "evo2:gene_search:*").2
      (generate_cache_key "ncbi_proxy"
        [Param.s "https://eutils.ncbi.nlm.nih.gov/entrez/eutils/esearch.fcgi?term=evo2:gene_search:BRCA1:hg38"]) =
      none :=
  ⟨rfl, rfl⟩

/-- C9 (amended): on the in-memory fallback, clearByPattern
("evo2:gene_search:*") removes exactly the keys containing the
de-wildcarded pattern "evo2:gene_search:" as a substring - in particular
every gene_search-category key - leaves every key not containing that
substring intact, and returns the number of entries removed. -/
theorem C9_clear_pattern_substring_semantics :
    ∀ (c : CacheTable) (k : String) (ps : List Param),
      (imClearPattern c "evo2:gene_search:*").1 =
        (c.filter (fun kv => strContains kv.1 (deWild "evo2:gene_search:*"))).length ∧
      tblLookup (imClearPattern c "evo2:gene_search:*").2 k =
        (if strContains k (deWild "evo2:gene_search:*") then none
         else tblLookup c k) ∧
      tblLookup (imClearPattern c "evo2:gene_search:*").2
        (generate_cache_key "gene_search" ps) = none := by
  intro c k ps
  refine ⟨rfl, ?_, ?_⟩
  · rw [show (imClearPattern c "evo2:gene_search:*").2 =
        c.filter (fun kv => !strContains kv.1 (deWild "evo2:gene_search:*")) from rfl]
    rw [tblLookup_filterKeys (fun s => !strContains s (deWild "evo2:gene_search:*")) c k]
    cases hc : strContains k (deWild "evo2:gene_search:*") <;> simp [hc]
  · rw [show (imClearPattern c "evo2:gene_search:*").2 =
        c.filter (fun kv => !strContains kv.1 (deWild "evo2:gene_search:*")) from rfl]
    rw [tblLookup_filterKeys (fun s => !strContains s (deWild "evo2:gene_search:*")) c _]
    have hkey : generate_cache_key "gene_search" ps =
        "evo2:gene_search:" ++ joinColon (ps.map Param.toStr) := rfl
    have hc : strContains (generate_cache_key "gene_search" ps)
        (deWild "evo2:gene_search:*") = true := by
      rw [hkey, show deWild "evo2:gene_search:*" = "evo2:gene_search:" from rfl]
      exact strContains_append_left "evo2:gene_search:" (joinColon (ps.map Param.toStr))
    simp [hc]

/- ------------------------------------------------------------------ -/
/- C8 - set/get round-trip on both backends                           -/
/- ------------------------------------------------------------------ -/

/-- C8: immediately after a successful set(k, v, ttl) with positive ttl,
get(k) returns v - on the in-memory backend directly, through the manager
with a healthy remote backend, and through the manager in fallback mode. -/
theorem C8_set_get_roundtrip :
    (∀ (c : CacheTable) (k : String) (v : JsonVal) (ttl now : Nat),
      0 < ttl → (imGet (imSet c k v ttl now).2 k now).1 = some v) ∧
    (∀ (f : CallFlags) (now : Nat) (w : World) (k : String) (v : JsonVal)
      (ttl : Nat), 0 < ttl → f.pingOk = true → f.opRaises = false →
      w.useFallback = false →
      (mgrGet f now (mgrSet f now w k v ttl).2 k).1 = some v) ∧
    (∀ (f g : CallFlags) (now : Nat) (w : World) (k : String) (v : JsonVal)
      (ttl : Nat), 0 < ttl → w.useFallback = true →
      (mgrGet g now (mgrSet f now w k v ttl).2 k).1 = some v) := by
  have him : ∀ (c : CacheTable) (k : String) (v : JsonVal) (ttl now : Nat),
      0 < ttl → (imGet (imSet c k v ttl now).2 k now).1 = some v := by
    intro c k v ttl now ht
    simp [imSet, imGet, tblLookup_tblSet_self, Nat.lt_add_of_pos_right ht]
  refine ⟨him, ?_, ?_⟩
  · intro f now w k v ttl ht hp hr hf
    simp [mgrSet, mgrGet, hp, hr, hf, remoteGet, tblLookup_tblSet_self,
      Nat.lt_add_of_pos_right ht]
  · intro f g now w k v ttl ht hf
    have hset : (mgrSet f now w k v ttl).2 =
        { w with fallback := (imSet w.fallback k v ttl now).2 } := by
      simp [mgrSet, hf]
    rw [hset]
    simp only [mgrGet, hf]
    simp [him w.fallback k v ttl now ht, imGet, imSet, tblLookup_tblSet_self,
      Nat.lt_add_of_pos_right ht]

/-- C8 witness: the round-trip at concrete inputs on an empty in-memory
table, a healthy remote manager, and a latched-fallback manager. -/
theorem C8_set_get_roundtrip_witness :
    (imGet (imSet [] "k" (JsonVal.str "x") 60 0).2 "k" 0).1 =
      some (JsonVal.str "x") ∧
    (mgrGet ⟨true, false⟩ 0
      (mgrSet ⟨true, false⟩ 0 ⟨[], false, []⟩ "k" (JsonVal.str "x") 60).2 "k").1 =
      some (JsonVal.str "x") ∧
    (mgrGet ⟨false, true⟩ 0
      (mgrSet ⟨true, false⟩ 0 ⟨[], true, []⟩ "k" (JsonVal.str "x") 60).2 "k").1 =
      some (JsonVal.str "x") :=
  ⟨C8_set_get_roundtrip.1 [] "k" (JsonVal.str "x") 60 0 (by decide),
   C8_set_get_roundtrip.2.1 ⟨true, false⟩ 0 ⟨[], false, []⟩ "k"
     (JsonVal.str "x") 60 (by decide) rfl rfl rfl,
   C8_set_get_roundtrip.2.2 ⟨true, false⟩ ⟨false, true⟩ 0 ⟨[], true, []⟩ "k"
     (JsonVal.str "x") 60 (by decide) rfl⟩

/- ------------------------------------------------------------------ -/
/- C1 - failover latching                                             -/
/- ------------------------------------------------------------------ -/

theorem mgrStep_fallback_mono (f : CallFlags) (now : Nat) (w : World)
    (op : CacheOp) (h : w.useFallback = true) :
    (mgrStep f now w op).useFallback = true := by
  cases op with
  | opGet k => simp [mgrStep, mgrGet, h]
  | opSet k v ttl => simp [mgrStep, mgrSet, h]
  | opDel k =>
      simp only [mgrStep, mgrDelete]
      split
      · exact h
      · split
        · exact h
        · exact h
  | opClear pat => simp [mgrStep, mgrClearPattern, h]

theorem mgrRun_fallback_mono (w : World) (ops : List (CallFlags × Nat × CacheOp))
    (h : w.useFallback = true) : (mgrRun w ops).useFallback = true := by
  induction ops generalizing w with
  | nil => exact h
  | cons fop rest ih =>
      exact ih (mgrStep fop.1 fop.2.1 w fop.2.2) (mgrStep_fallback_mono _ _ _ _ h)

/-- C1 counterexample: a raising remote delete (successful probe, operation
raises) neither sets _use_fallback nor retries against the fallback: the
flag stays false, False is returned, and the fallback table - which holds
the key - is left untouched, refuting "once any remote-backend cache
operation raises, the flag is set to true ... and every subsequent Cache
Store operation (get, set, delete, clearByPattern) is retried against the
in-memory fallback". -/
theorem C1_delete_does_not_latch :
    (mgrDelete ⟨true, true⟩ 0
      ⟨[], false, [("evo2:genomes", JsonVal.str "v", 100)]⟩ "evo2:genomes").2.useFallback
      = false ∧
    (mgrDelete ⟨true, true⟩ 0
      ⟨[], false, [("evo2:genomes", JsonVal.str "v", 100)]⟩ "evo2:genomes").1 = false ∧
    (mgrDelete ⟨true, true⟩ 0
      ⟨[], false, [("evo2:genomes", JsonVal.str "v", 100)]⟩ "evo2:genomes").2.fallback
      = [("evo2:genomes", JsonVal.str "v", 100)] :=
  ⟨rfl, rfl, rfl⟩

/-- C1 (amended): a raising remote get, set or clearByPattern (after a
successful probe) latches _use_fallback and is immediately served by the
in-memory fallback without raising; no operation sequence ever resets the
flag; while the flag is set, get, set and clearByPattern are served by the
fallback. delete, however, never consults the flag or the fallback: it
returns False when the probe fails or the remote delete raises, without
latching and without touching the fallback table. -/
theorem C1_failover_latch_except_delete :
    (∀ (f : CallFlags) (now : Nat) (w : World) (k : String),
      f.pingOk = true → w.useFallback = false → f.opRaises = true →
      (mgrGet f now w k).2.useFallback = true ∧
      (mgrGet f now w k).1 = (imGet w.fallback k now).1) ∧
    (∀ (f : CallFlags) (now : Nat) (w : World) (k : String) (v : JsonVal)
      (ttl : Nat),
      f.pingOk = true → w.useFallback = false → f.opRaises = true →
      (mgrSet f now w k v ttl).2.useFallback = true ∧
      (mgrSet f now w k v ttl).1 = true) ∧
    (∀ (f : CallFlags) (now : Nat) (w : World) (pat : String),
      f.pingOk = true → w.useFallback = false → f.opRaises = true →
      (mgrClearPattern f now w pat).2.useFallback = true ∧
      (mgrClearPattern f now w pat).1 = (imClearPattern w.fallback pat).1) ∧
    (∀ (w : World) (ops : List (CallFlags × Nat × CacheOp)),
      w.useFallback = true → (mgrRun w ops).useFallback = true) ∧
    (∀ (f : CallFlags) (now : Nat) (w : World) (k : String),
      w.useFallback = true →
      (mgrGet f now w k).1 = (imGet w.fallback k now).1) ∧
    (∀ (f : CallFlags) (now : Nat) (w : World) (k : String) (v : JsonVal)
      (ttl : Nat), w.useFallback = true → (mgrSet f now w k v ttl).1 = true) ∧
    (∀ (f : CallFlags) (now : Nat) (w : World) (pat : String),
      w.useFallback = true →
      (mgrClearPattern f now w pat).1 = (imClearPattern w.fallback pat).1) ∧
    (∀ (f : CallFlags) (now : Nat) (w : World) (k : String),
      (mgrDelete f now w k).2.useFallback = w.useFallback ∧
      (mgrDelete f now w k).2.fallback = w.fallback ∧
      (f.opRaises = true ∨ f.pingOk = false →
        (mgrDelete f now w k).1 = false)) := by
  refine ⟨?_, ?_, ?_, mgrRun_fallback_mono, ?_, ?_, ?_, ?_⟩
  · intro f now w k hp hf hr
    constructor <;> simp [mgrGet, hp, hf, hr]
  · intro f now w k v ttl hp hf hr
    constructor <;> simp [mgrSet, hp, hf, hr, imSet]
  · intro f now w pat hp hf hr
    constructor <;> simp [mgrClearPattern, hp, hf, hr]
  · intro f now w k hf
    simp [mgrGet, hf]
  · intro f now w k v ttl hf
    simp [mgrSet, hf, imSet]
  · intro f now w pat hf
    simp [mgrClearPattern, hf]
  · intro f now w k
    refine ⟨?_, ?_, ?_⟩
    · simp only [mgrDelete]
      split
      · rfl
      · split <;> rfl
    · simp only [mgrDelete]
      split
      · rfl
      · split <;> rfl
    · intro hcase
      simp only [mgrDelete]
      rcases hcase with hr | hp
      · split
        · rfl
        · simp [hr]
      · simp [hp]

/-- C1 witness: the amended failover behaviour evaluated at concrete inputs
(a raising get on a fresh manager; a latched world running a get, a set,
a delete and a clear; a fallback-mode get; a raising delete). -/
theorem C1_failover_latch_witness :
    ((mgrGet ⟨true, true⟩ 5 ⟨[], false, [("k", JsonVal.str "v", 9)]⟩ "k").2.useFallback
       = true ∧
     (mgrGet ⟨true, true⟩ 5 ⟨[], false, [("k", JsonVal.str "v", 9)]⟩ "k").1 =
       (imGet [("k", JsonVal.str "v", 9)] "k" 5).1) ∧
    (mgrRun ⟨[], true, []⟩
      [(⟨true, false⟩, 0, CacheOp.opGet "k"),
       (⟨true, false⟩, 1, CacheOp.opSet "k" (JsonVal.str "v") 60),
       (⟨true, false⟩, 2, CacheOp.opDel "k"),
       (⟨true, false⟩, 3, CacheOp.opClear "evo2:*")]).useFallback = true ∧
    (mgrGet ⟨true, false⟩ 0 ⟨[], true, []⟩ "k").1 = (imGet [] "k" 0).1 ∧
    (mgrDelete ⟨true, true⟩ 0 ⟨[], true, []⟩ "k").1 = false :=
  ⟨C1_failover_latch_except_delete.1 ⟨true, true⟩ 5
     ⟨[], false, [("k", JsonVal.str "v", 9)]⟩ "k" rfl rfl rfl,
   C1_failover_latch_except_delete.2.2.2.1 ⟨[], true, []⟩
     [(⟨true, false⟩, 0, CacheOp.opGet "k"),
      (⟨true, false⟩, 1, CacheOp.opSet "k" (JsonVal.str "v") 60),
      (⟨true, false⟩, 2, CacheOp.opDel "k"),
      (⟨true, false⟩, 3, CacheOp.opClear "evo2:*")] rfl,
   C1_failover_latch_except_delete.2.2.2.2.1 ⟨true, false⟩ 0 ⟨[], true, []⟩ "k" rfl,
   (C1_failover_latch_except_delete.2.2.2.2.2.2.2 ⟨true, true⟩ 0
     ⟨[], true, []⟩ "k").2.2 (Or.inl rfl)⟩

/- ------------------------------------------------------------------ -/
/- C6 - the fixed-window rate limiter                                 -/
/- ------------------------------------------------------------------ -/

theorem rlLookup_rlStore_self (t : RLTable) (ip : String) (ts : List Nat) :
    rlLookup (rlStore t ip ts) ip = ts := by
  induction t with
  | nil => simp [rlStore, rlLookup]
  | cons e rest ih =>
      by_cases h : e.1 = ip
      · simp [rlStore, h, rlLookup]
      · cases e with
        | mk ip0 ts0 =>
            simp only at h
            simp [rlStore, h, rlLookup, ih]

theorem rlLookup_rlStore_other (t : RLTable) (ip : String) (ts : List Nat)
    (ip' : String) (h : ip' ≠ ip) :
    rlLookup (rlStore t ip ts) ip' = rlLookup t ip' := by
  induction t with
  | nil =>
      have h1 : ip ≠ ip' := fun hh => h hh.symm
      simp [rlStore, rlLookup, h1]
  | cons e rest ih =>
      cases e with
      | mk ip0 ts0 =>
          by_cases h0 : ip0 = ip
          · subst h0
            have h1 : ip0 ≠ ip' := fun hh => h hh.symm
            simp [rlStore, rlLookup, h1]
          · simp [rlStore, h0, rlLookup, ih]

/-- C6: the /proxy/modal rate limiter with window 60s and limit 10: each
call first drops the client's timestamps older than the window, admits
(appending the timestamp) iff the pruned count is below 10, rejects without
appending otherwise, and leaves other clients' windows unchanged; in the
concrete scenario, the 11th call inside the window is rejected, a different
client is still admitted, and the original client is admitted again once
the window has elapsed. -/
theorem C6_rate_limiter_window :
    (∀ (t : RLTable) (ip : String) (now : Nat),
      (rateLimitCheck t ip now).1 =
        decide ((pruneTimestamps now (rlLookup t ip)).length <
          MODAL_RATE_LIMIT_REQUESTS)) ∧
    (∀ (t : RLTable) (ip : String) (now : Nat),
      rlLookup (rateLimitCheck t ip now).2 ip =
        if (pruneTimestamps now (rlLookup t ip)).length <
            MODAL_RATE_LIMIT_REQUESTS
        then pruneTimestamps now (rlLookup t ip) ++ [now]
        else pruneTimestamps now (rlLookup t ip)) ∧
    (∀ (t : RLTable) (ip : String) (now : Nat) (ip' : String), ip' ≠ ip →
      rlLookup (rateLimitCheck t ip now).2 ip' = rlLookup t ip') ∧
    (rlRun []
      [("a", 0), ("a", 1), ("a", 2), ("a", 3), ("a", 4), ("a", 5), ("a", 6),
       ("a", 7), ("a", 8), ("a", 9), ("a", 10), ("b", 10), ("a", 70)]).1 =
      [true, true, true, true, true, true, true, true, true, true,
       false, true, true] := by
  refine ⟨?_, ?_, ?_, by decide⟩
  · intro t ip now
    by_cases h : MODAL_RATE_LIMIT_REQUESTS ≤
        (pruneTimestamps now (rlLookup t ip)).length
    · simp [rateLimitCheck, h, Nat.not_lt.mpr h]
    · simp [rateLimitCheck, h, Nat.lt_of_not_le h]
  · intro t ip now
    by_cases h : MODAL_RATE_LIMIT_REQUESTS ≤
        (pruneTimestamps now (rlLookup t ip)).length
    · simp [rateLimitCheck, h, Nat.not_lt.mpr h, rlLookup_rlStore_self]
    · simp [rateLimitCheck, h, Nat.lt_of_not_le h, rlLookup_rlStore_self]
  · intro t ip now ip' h
    by_cases hc : MODAL_RATE_LIMIT_REQUESTS ≤
        (pruneTimestamps now (rlLookup t ip)).length
    · simp [rateLimitCheck, hc, rlLookup_rlStore_other _ _ _ _ h]
    · simp [rateLimitCheck, hc, rlLookup_rlStore_other _ _ _ _ h]

/-- C6 witness: the per-client isolation conjunct applied concretely - a
check for client "a" leaves client "b"'s window unchanged. -/
theorem C6_rate_limiter_window_witness :
    ("b" : String) ≠ "a" ∧
    rlLookup (rateLimitCheck [("b", [3])] "a" 5).2 "b" =
      rlLookup [("b", [3])] "b" :=
  ⟨by decide, C6_rate_limiter_window.2.2.1 [("b", [3])] "a" 5 "b" (by decide)⟩

/- ------------------------------------------------------------------ -/
/- C2 - rate-limit rejection as surfaced by the /proxy/modal handler  -/
/- ------------------------------------------------------------------ -/

/-- C2: evaluating the /proxy/modal handler for a client that already has
10 admitted requests inside the 60-second window: the rejection happens
with zero upstream calls and zero cache reads/writes, but the caller
receives HTTP 500 "Failed to proxy Modal request" - not a 429-equivalent -
because the handler's blanket `except Exception` catches its own
HTTPException(429) and re-raises it as a generic 500. -/
theorem C2_rate_limit_rejection_surfaces_500 :
    (proxy_modal_handler (fun _ => Fetch.exn "unreachable") ⟨true, false⟩
      ⟨true, false⟩ (some "https://modal.example/analyze")
      [("1.2.3.4", [100, 100, 100, 100, 100, 100, 100, 100, 100, 100])]
      "1.2.3.4" 130 ⟨[], false, []⟩
      ⟨none, none, none, none, none⟩).outcome =
      HandlerOutcome.httpError 500 "Failed to proxy Modal request" ∧
    (proxy_modal_handler (fun _ => Fetch.exn "unreachable") ⟨true, false⟩
      ⟨true, false⟩ (some "https://modal.example/analyze")
      [("1.2.3.4", [100, 100, 100, 100, 100, 100, 100, 100, 100, 100])]
      "1.2.3.4" 130 ⟨[], false, []⟩
      ⟨none, none, none, none, none⟩).calls = 0 ∧
    (proxy_modal_handler (fun _ => Fetch.exn "unreachable") ⟨true, false⟩
      ⟨true, false⟩ (some "https://modal.example/analyze")
      [("1.2.3.4", [100, 100, 100, 100, 100, 100, 100, 100, 100, 100])]
      "1.2.3.4" 130 ⟨[], false, []⟩
      ⟨none, none, none, none, none⟩).reads = ([] : List String) ∧
    (proxy_modal_handler (fun _ => Fetch.exn "unreachable") ⟨true, false⟩
      ⟨true, false⟩ (some "https://modal.example/analyze")
      [("1.2.3.4", [100, 100, 100, 100, 100, 100, 100, 100, 100, 100])]
      "1.2.3.4" 130 ⟨[], false, []⟩
      ⟨none, none, none, none, none⟩).writes =
      ([] : List (String × JsonVal × Nat)) :=
  ⟨rfl, rfl, rfl, rfl⟩

/- ------------------------------------------------------------------ -/
/- C5 - SSRF allow-list validation fails closed                       -/
/- ------------------------------------------------------------------ -/

/-- C5: a forwarding call to the NCBI or UCSC proxy whose endpoint hostname
is not on that family's allow-list fails closed before any forwarding: the
returned RunOut carries an error status, zero upstream calls, no cache
reads, no cache writes, and an unchanged Cache Store. -/
theorem C5_ssrf_validation_fails_closed :
    (∀ (up : Nat → Fetch) (fg fs : CallFlags) (now : Nat) (w : World)
      (ep : Endpoint), hostAllowed ep ncbiAllowedHosts = false →
      proxy_ncbi_endpoint up fg fs now w ep =
        { ret := .withStatus
            (JsonVal.obj [("error", .str "Internal server error")]) 500,
          w := w, calls := 0, reads := [], writes := [], sleeps := [] }) ∧
    (∀ (up : Nat → Fetch) (fg fs : CallFlags) (now : Nat) (w : World)
      (ep : Endpoint), ep.hostname ≠ some "api.genome.ucsc.edu" →
      proxy_ucsc_endpoint up fg fs now w ep =
        { ret := .withStatus
            (JsonVal.obj [("error", .str "Internal Server Error")]) 500,
          w := w, calls := 0, reads := [], writes := [], sleeps := [] }) := by
  constructor
  · intro up fg fs now w ep h
    simp [proxy_ncbi_endpoint, h]
  · intro up fg fs now w ep h
    simp [proxy_ucsc_endpoint, h]

/-- C5 witness: both fail-closed branches evaluated at a link-local
metadata-service endpoint. -/
theorem C5_ssrf_validation_witness :
    hostAllowed ⟨"http://169.254.169.254/latest/meta-data",
      some "169.254.169.254"⟩ ncbiAllowedHosts = false ∧
    proxy_ncbi_endpoint (fun _ => Fetch.exn "never") ⟨true, false⟩
      ⟨true, false⟩ 0 ⟨[], false, []⟩
      ⟨"http://169.254.169.254/latest/meta-data", some "169.254.169.254"⟩ =
      { ret := .withStatus
          (JsonVal.obj [("error", .str "Internal server error")]) 500,
        w := ⟨[], false, []⟩, calls := 0, reads := [], writes := [],
        sleeps := [] } ∧
    proxy_ucsc_endpoint (fun _ => Fetch.exn "never") ⟨true, false⟩
      ⟨true, false⟩ 0 ⟨[], false, []⟩
      ⟨"http://169.254.169.254/latest/meta-data", some "169.254.169.254"⟩ =
      { ret := .withStatus
          (JsonVal.obj [("error", .str "Internal Server Error")]) 500,
        w := ⟨[], false, []⟩, calls := 0, reads := [], writes := [],
        sleeps := [] } :=
  ⟨by decide,
   C5_ssrf_validation_fails_closed.1 (fun _ => Fetch.exn "never")
     ⟨true, false⟩ ⟨true, false⟩ 0 ⟨[], false, []⟩
     ⟨"http://169.254.169.254/latest/meta-data", some "169.254.169.254"⟩
     (by decide),
   C5_ssrf_validation_fails_closed.2 (fun _ => Fetch.exn "never")
     ⟨true, false⟩ ⟨true, false⟩ 0 ⟨[], false, []⟩
     ⟨"http://169.254.169.254/latest/meta-data", some "169.254.169.254"⟩
     (by decide)⟩

/- ------------------------------------------------------------------ -/
/- Retry-loop step lemmas                                             -/
/- ------------------------------------------------------------------ -/

theorem retryLoop_retry_step (label : String) (ttl : Nat) (up : Nat → Fetch)
    (fs : CallFlags) (now : Nat) (key : String) (i fuel : Nat)
    (le : Option String) (w : World) (calls : Nat) (sleeps : List Nat)
    (h : retryableB (up i) = true) :
    retryLoop label ttl up fs now key i (fuel + 1) le w calls sleeps =
      retryLoop label ttl up fs now key (i + 1) fuel
        (some (retryMsg label (up i))) w (calls + 1)
        (sleeps ++ [(i + 1) * 1000]) := by
  cases hu : up i with
  | exn msg => simp [retryLoop, hu, retryMsg]
  | resp r =>
      have h5 : 500 ≤ r.status ∧ r.status < 600 := by
        simpa [retryableB, hu] using h
      have h429 : ¬(r.status = 429) := by omega
      have hnok : respNotOk r.status = true := by
        simp only [respNotOk, Bool.and_eq_true, decide_eq_true_eq]
        omega
      have hlt : ¬(r.status < 500) := by omega
      simp [retryLoop, hu, h429, hnok, hlt, retryMsg]

theorem retryLoop_ok_step (label : String) (ttl : Nat) (up : Nat → Fetch)
    (fs : CallFlags) (now : Nat) (key : String) (i fuel : Nat)
    (le : Option String) (w : World) (calls : Nat) (sleeps : List Nat)
    (r : Resp) (hu : up i = .resp r) (h429 : r.status ≠ 429)
    (hnok : respNotOk r.status = false) :
    retryLoop label ttl up fs now key i (fuel + 1) le w calls sleeps =
      { ret := .dataOnly (if r.ctJson then r.jsonData else JsonVal.str r.text),
        w := (mgrSet fs now w key
          (if r.ctJson then r.jsonData else JsonVal.str r.text) ttl).2,
        calls := calls + 1, reads := [],
        writes := [(key, (if r.ctJson then r.jsonData else JsonVal.str r.text), ttl)],
        sleeps := sleeps } := by
  simp [retryLoop, hu, h429, hnok]

theorem retryLoop_client_error_step (label : String) (ttl : Nat)
    (up : Nat → Fetch) (fs : CallFlags) (now : Nat) (key : String)
    (i fuel : Nat) (le : Option String) (w : World) (calls : Nat)
    (sleeps : List Nat) (r : Resp) (hu : up i = .resp r)
    (h429 : r.status ≠ 429) (h4 : 400 ≤ r.status) (h5 : r.status < 500) :
    retryLoop label ttl up fs now key i (fuel + 1) le w calls sleeps =
      { ret := .withStatus (errObj
          (label ++ " API Client Error: " ++ toString r.status ++ " " ++ r.reason)
          r.text) r.status,
        w := w, calls := calls + 1, reads := [], writes := [],
        sleeps := sleeps } := by
  have hnok : respNotOk r.status = true := by
    simp only [respNotOk, Bool.and_eq_true, decide_eq_true_eq]
    omega
  simp [retryLoop, hu, h429, hnok, h5]

theorem retryLoop_calls_mono (label : String) (ttl : Nat) (up : Nat → Fetch)
    (fs : CallFlags) (now : Nat) (key : String) :
    ∀ (fuel i : Nat) (le : Option String) (w : World) (calls : Nat)
      (sleeps : List Nat),
      calls ≤ (retryLoop label ttl up fs now key i fuel le w calls sleeps).calls := by
  intro fuel
  induction fuel with
  | zero => intro i le w calls sleeps; simp [retryLoop]
  | succ fuel ih =>
      intro i le w calls sleeps
      cases hu : up i with
      | exn msg =>
          simp only [retryLoop, hu]
          exact le_trans (Nat.le_succ calls) (ih (i + 1) _ w (calls + 1) _)
      | resp r =>
          simp only [retryLoop, hu]
          split
          · exact le_trans (Nat.le_succ calls) (ih (i + 1) _ w (calls + 1) _)
          · split
            · split
              · exact Nat.le_succ calls
              · exact le_trans (Nat.le_succ calls) (ih (i + 1) _ w (calls + 1) _)
            · exact Nat.le_succ calls

theorem retryLoop_calls_pos (label : String) (ttl : Nat) (up : Nat → Fetch)
    (fs : CallFlags) (now : Nat) (key : String) (fuel i : Nat)
    (le : Option String) (w : World) (calls : Nat) (sleeps : List Nat) :
    calls + 1 ≤
      (retryLoop label ttl up fs now key i (fuel + 1) le w calls sleeps).calls := by
  cases hu : up i with
  | exn msg =>
      simp only [retryLoop, hu]
      exact retryLoop_calls_mono label ttl up fs now key fuel (i + 1) _ w (calls + 1) _
  | resp r =>
      simp only [retryLoop, hu]
      split
      · exact retryLoop_calls_mono label ttl up fs now key fuel (i + 1) _ w (calls + 1) _
      · split
        · split
          · exact Nat.le_refl _
          · exact retryLoop_calls_mono label ttl up fs now key fuel (i + 1) _ w (calls + 1) _
        · exact Nat.le_refl _

theorem proxy_ncbi_miss (up : Nat → Fetch) (fg fs : CallFlags) (now : Nat)
    (w : World) (ep : Endpoint)
    (hh : hostAllowed ep ncbiAllowedHosts = true)
    (hm : truthyOpt (mgrGet fg now w
      (generate_cache_key "ncbi_proxy" [.s ep.url])).1 = false) :
    proxy_ncbi_endpoint up fg fs now w ep =
      { retryLoop "NCBI" 300 up fs now
          (generate_cache_key "ncbi_proxy" [.s ep.url]) 0 3 none
          (mgrGet fg now w (generate_cache_key "ncbi_proxy" [.s ep.url])).2 0 []
        with reads := [generate_cache_key "ncbi_proxy" [.s ep.url]] } := by
  cases hc : (mgrGet fg now w (generate_cache_key "ncbi_proxy" [.s ep.url])).1 with
  | none => simp [proxy_ncbi_endpoint, hh, hc]
  | some v =>
      have hv : v.truthy = false := by simpa [truthyOpt, hc] using hm
      simp [proxy_ncbi_endpoint, hh, hc, hv]

theorem proxy_modal_miss (up : Nat → Fetch) (fg fs : CallFlags) (u : String)
    (now : Nat) (w : World) (b : ModalBody)
    (hm : truthyOpt (mgrGet fg now w (modalCacheKey b)).1 = false) :
    proxy_modal_endpoint up fg fs (some u) now w b =
      { retryLoop "Modal" 1800 up fs now (modalCacheKey b) 0 3 none
          (mgrGet fg now w (modalCacheKey b)).2 0 []
        with reads := [modalCacheKey b] } := by
  cases hc : (mgrGet fg now w (modalCacheKey b)).1 with
  | none => simp [proxy_modal_endpoint, hc]
  | some v =>
      have hv : v.truthy = false := by simpa [truthyOpt, hc] using hm
      simp [proxy_modal_endpoint, hc, hv]

/- ------------------------------------------------------------------ -/
/- C7 - non-429 4xx: one attempt, no cache write, surfaced error      -/
/- ------------------------------------------------------------------ -/

/-- C7: when the first upstream response of an NCBI or Modal forwarding
call (past the cache guard) is a non-429 4xx, the proxy performs exactly
one attempt, writes nothing to the cache, and returns the structured
client-error document carrying the original status code and body text. -/
theorem C7_client_error_single_attempt :
    (∀ (up : Nat → Fetch) (fg fs : CallFlags) (now : Nat) (w : World)
      (ep : Endpoint) (r : Resp),
      hostAllowed ep ncbiAllowedHosts = true →
      truthyOpt (mgrGet fg now w
        (generate_cache_key "ncbi_proxy" [.s ep.url])).1 = false →
      up 0 = .resp r → 400 ≤ r.status → r.status < 500 → r.status ≠ 429 →
      (proxy_ncbi_endpoint up fg fs now w ep).calls = 1 ∧
      (proxy_ncbi_endpoint up fg fs now w ep).writes = [] ∧
      (proxy_ncbi_endpoint up fg fs now w ep).ret =
        .withStatus (errObj
          ("NCBI API Client Error: " ++ toString r.status ++ " " ++ r.reason)
          r.text) r.status) ∧
    (∀ (up : Nat → Fetch) (fg fs : CallFlags) (u : String) (now : Nat)
      (w : World) (b : ModalBody) (r : Resp),
      truthyOpt (mgrGet fg now w (modalCacheKey b)).1 = false →
      up 0 = .resp r → 400 ≤ r.status → r.status < 500 → r.status ≠ 429 →
      (proxy_modal_endpoint up fg fs (some u) now w b).calls = 1 ∧
      (proxy_modal_endpoint up fg fs (some u) now w b).writes = [] ∧
      (proxy_modal_endpoint up fg fs (some u) now w b).ret =
        .withStatus (errObj
          ("Modal API Client Error: " ++ toString r.status ++ " " ++ r.reason)
          r.text) r.status) := by
  constructor
  · intro up fg fs now w ep r hh hm hu h4 h5 h429
    rw [proxy_ncbi_miss up fg fs now w ep hh hm,
      show (3 : Nat) = 2 + 1 from rfl,
      retryLoop_client_error_step "NCBI" 300 up fs now _ 0 2 none _ 0 [] r hu
        h429 h4 h5]
    exact ⟨rfl, rfl, rfl⟩
  · intro up fg fs u now w b r hm hu h4 h5 h429
    rw [proxy_modal_miss up fg fs u now w b hm,
      show (3 : Nat) = 2 + 1 from rfl,
      retryLoop_client_error_step "Modal" 1800 up fs now _ 0 2 none _ 0 [] r hu
        h429 h4 h5]
    exact ⟨rfl, rfl, rfl⟩

/-- C7 witness: both proxies evaluated on a cold cache against an upstream
whose first response is 404 Not Found. -/
theorem C7_client_error_single_attempt_witness :
    ((proxy_ncbi_endpoint
        (fun _ => Fetch.resp ⟨404, "Not Found", none, false, JsonVal.null, "missing"⟩)
        ⟨true, false⟩ ⟨true, false⟩ 0 ⟨[], false, []⟩
        ⟨"https://eutils.ncbi.nlm.nih.gov/entrez/eutils/esearch.fcgi",
         some "eutils.ncbi.nlm.nih.gov"⟩).calls = 1 ∧
     (proxy_ncbi_endpoint
        (fun _ => Fetch.resp ⟨404, "Not Found", none, false, JsonVal.null, "missing"⟩)
        ⟨true, false⟩ ⟨true, false⟩ 0 ⟨[], false, []⟩
        ⟨"https://eutils.ncbi.nlm.nih.gov/entrez/eutils/esearch.fcgi",
         some "eutils.ncbi.nlm.nih.gov"⟩).writes = [] ∧
     (proxy_ncbi_endpoint
        (fun _ => Fetch.resp ⟨404, "Not Found", none, false, JsonVal.null, "missing"⟩)
        ⟨true, false⟩ ⟨true, false⟩ 0 ⟨[], false, []⟩
        ⟨"https://eutils.ncbi.nlm.nih.gov/entrez/eutils/esearch.fcgi",
         some "eutils.ncbi.nlm.nih.gov"⟩).ret =
       .withStatus (errObj ("NCBI API Client Error: " ++ toString 404 ++ " " ++ "Not Found")
         "missing") 404) ∧
    ((proxy_modal_endpoint
        (fun _ => Fetch.resp ⟨404, "Not Found", none, false, JsonVal.null, "missing"⟩)
        ⟨true, false⟩ ⟨true, false⟩ (some "https://modal.example/analyze") 0
        ⟨[], false, []⟩ ⟨none, none, none, none, none⟩).calls = 1 ∧
     (proxy_modal_endpoint
        (fun _ => Fetch.resp ⟨404, "Not Found", none, false, JsonVal.null, "missing"⟩)
        ⟨true, false⟩ ⟨true, false⟩ (some "https://modal.example/analyze") 0
        ⟨[], false, []⟩ ⟨none, none, none, none, none⟩).writes = [] ∧
     (proxy_modal_endpoint
        (fun _ => Fetch.resp ⟨404, "Not Found", none, false, JsonVal.null, "missing"⟩)
        ⟨true, false⟩ ⟨true, false⟩ (some "https://modal.example/analyze") 0
        ⟨[], false, []⟩ ⟨none, none, none, none, none⟩).ret =
       .withStatus (errObj ("Modal API Client Error: " ++ toString 404 ++ " " ++ "Not Found")
         "missing") 404) :=
  ⟨C7_client_error_single_attempt.1
     (fun _ => Fetch.resp ⟨404, "Not Found", none, false, JsonVal.null, "missing"⟩)
     ⟨true, false⟩ ⟨true, false⟩ 0 ⟨[], false, []⟩
     ⟨"https://eutils.ncbi.nlm.nih.gov/entrez/eutils/esearch.fcgi",
      some "eutils.ncbi.nlm.nih.gov"⟩
     ⟨404, "Not Found", none, false, JsonVal.null, "missing"⟩
     (by decide) rfl rfl (by decide) (by decide) (by decide),
   C7_client_error_single_attempt.2
     (fun _ => Fetch.resp ⟨404, "Not Found", none, false, JsonVal.null, "missing"⟩)
     ⟨true, false⟩ ⟨true, false⟩ "https://modal.example/analyze" 0
     ⟨[], false, []⟩ ⟨none, none, none, none, none⟩
     ⟨404, "Not Found", none, false, JsonVal.null, "missing"⟩
     rfl rfl (by decide) (by decide) (by decide)⟩

theorem retryLoop_two_retryable_then_ok (label : String) (ttl : Nat)
    (up : Nat → Fetch) (fs : CallFlags) (now : Nat) (key : String) (w : World)
    (h0 : retryableB (up 0) = true) (h1 : retryableB (up 1) = true)
    (r2 : Resp) (hu : up 2 = .resp r2) (h429 : r2.status ≠ 429)
    (hnok : respNotOk r2.status = false) :
    retryLoop label ttl up fs now key 0 3 none w 0 [] =
      { ret := .dataOnly (if r2.ctJson then r2.jsonData else JsonVal.str r2.text),
        w := (mgrSet fs now w key
          (if r2.ctJson then r2.jsonData else JsonVal.str r2.text) ttl).2,
        calls := 3, reads := [],
        writes := [(key, (if r2.ctJson then r2.jsonData else JsonVal.str r2.text), ttl)],
        sleeps := [1000, 2000] } := by
  calc retryLoop label ttl up fs now key 0 3 none w 0 []
      = retryLoop label ttl up fs now key 1 2
          (some (retryMsg label (up 0))) w 1 [1000] := by
        simpa using retryLoop_retry_step label ttl up fs now key 0 2 none w 0 [] h0
    _ = retryLoop label ttl up fs now key 2 1
          (some (retryMsg label (up 1))) w 2 [1000, 2000] := by
        simpa using retryLoop_retry_step label ttl up fs now key 1 1
          (some (retryMsg label (up 0))) w 1 [1000] h1
    _ = _ := by
        simpa using retryLoop_ok_step label ttl up fs now key 2 0
          (some (retryMsg label (up 1))) w 2 [1000, 2000] r2 hu h429 hnok

/- ------------------------------------------------------------------ -/
/- C3 - retry with linear backoff                                     -/
/- ------------------------------------------------------------------ -/

/-- C3 counterexample: the UCSC proxy does not retry. Against an upstream
that returns 500 twice and then 200, a cold-cache UCSC forwarding call
performs exactly 1 attempt, caches nothing, and surfaces the 500 -
refuting "for every upstream family (NCBI, UCSC, Modal) ... retried ...
up to 3 attempts; ... 500 twice and then 200 results in exactly 3 attempts
and a successful, cached result". -/
theorem C3_ucsc_does_not_retry :
    (proxy_ucsc_endpoint
      (fun i => if i < 2
        then Fetch.resp ⟨500, "Internal Server Error", none, true, JsonVal.null, "boom"⟩
        else Fetch.resp ⟨200, "OK", none, true,
          JsonVal.obj [("ok", JsonVal.boolv true)], "body"⟩)
      ⟨true, false⟩ ⟨true, false⟩ 0 ⟨[], false, []⟩
      ⟨"https://api.genome.ucsc.edu/getData/sequence",
       some "api.genome.ucsc.edu"⟩).calls = 1 ∧
    (proxy_ucsc_endpoint
      (fun i => if i < 2
        then Fetch.resp ⟨500, "Internal Server Error", none, true, JsonVal.null, "boom"⟩
        else Fetch.resp ⟨200, "OK", none, true,
          JsonVal.obj [("ok", JsonVal.boolv true)], "body"⟩)
      ⟨true, false⟩ ⟨true, false⟩ 0 ⟨[], false, []⟩
      ⟨"https://api.genome.ucsc.edu/getData/sequence",
       some "api.genome.ucsc.edu"⟩).writes = [] ∧
    (proxy_ucsc_endpoint
      (fun i => if i < 2
        then Fetch.resp ⟨500, "Internal Server Error", none, true, JsonVal.null, "boom"⟩
        else Fetch.resp ⟨200, "OK", none, true,
          JsonVal.obj [("ok", JsonVal.boolv true)], "body"⟩)
      ⟨true, false⟩ ⟨true, false⟩ 0 ⟨[], false, []⟩
      ⟨"https://api.genome.ucsc.edu/getData/sequence",
       some "api.genome.ucsc.edu"⟩).ret =
      .withStatus (errObj ("UCSC API Error: " ++ toString 500 ++ " "
        ++ "Internal Server Error") "boom") 500 :=
  ⟨rfl, rfl, rfl⟩

/-- C3 (amended): the NCBI and Modal proxies retry a 5xx or network-level
failure after a delay of attempt*1 seconds (linear backoff) up to 3
attempts - two such failures followed by a 200 give exactly 3 attempts,
sleeps of 1 s and 2 s, and a cached successful result written with the
category TTL (300 s for NCBI, 1800 s for Modal) - while the UCSC proxy
performs exactly one attempt and surfaces a 5xx or network failure
immediately without retrying or caching. -/
theorem C3_retry_linear_backoff :
    (∀ (up : Nat → Fetch) (fg fs : CallFlags) (now : Nat) (w : World)
      (ep : Endpoint) (r2 : Resp),
      hostAllowed ep ncbiAllowedHosts = true →
      truthyOpt (mgrGet fg now w
        (generate_cache_key "ncbi_proxy" [.s ep.url])).1 = false →
      retryableB (up 0) = true → retryableB (up 1) = true →
      up 2 = .resp r2 → r2.status = 200 →
      (proxy_ncbi_endpoint up fg fs now w ep).calls = 3 ∧
      (proxy_ncbi_endpoint up fg fs now w ep).sleeps = [1000, 2000] ∧
      (proxy_ncbi_endpoint up fg fs now w ep).ret =
        .dataOnly (if r2.ctJson then r2.jsonData else JsonVal.str r2.text) ∧
      (proxy_ncbi_endpoint up fg fs now w ep).writes =
        [(generate_cache_key "ncbi_proxy" [.s ep.url],
          (if r2.ctJson then r2.jsonData else JsonVal.str r2.text), 300)]) ∧
    (∀ (up : Nat → Fetch) (fg fs : CallFlags) (u : String) (now : Nat)
      (w : World) (b : ModalBody) (r2 : Resp),
      truthyOpt (mgrGet fg now w (modalCacheKey b)).1 = false →
      retryableB (up 0) = true → retryableB (up 1) = true →
      up 2 = .resp r2 → r2.status = 200 →
      (proxy_modal_endpoint up fg fs (some u) now w b).calls = 3 ∧
      (proxy_modal_endpoint up fg fs (some u) now w b).sleeps = [1000, 2000] ∧
      (proxy_modal_endpoint up fg fs (some u) now w b).ret =
        .dataOnly (if r2.ctJson then r2.jsonData else JsonVal.str r2.text) ∧
      (proxy_modal_endpoint up fg fs (some u) now w b).writes =
        [(modalCacheKey b,
          (if r2.ctJson then r2.jsonData else JsonVal.str r2.text), 1800)]) ∧
    (∀ (up : Nat → Fetch) (fg fs : CallFlags) (now : Nat) (w : World)
      (ep : Endpoint),
      ep.hostname = some "api.genome.ucsc.edu" →
      truthyOpt (mgrGet fg now w
        (generate_cache_key "ucsc_proxy" [.s ep.url])).1 = false →
      retryableB (up 0) = true →
      (proxy_ucsc_endpoint up fg fs now w ep).calls = 1 ∧
      (proxy_ucsc_endpoint up fg fs now w ep).writes = []) := by
  refine ⟨?_, ?_, ?_⟩
  · intro up fg fs now w ep r2 hh hm h0 h1 hu2 hs
    have h429 : r2.status ≠ 429 := by omega
    have hnok : respNotOk r2.status = false := by
      simp only [respNotOk, hs]
      decide
    rw [proxy_ncbi_miss up fg fs now w ep hh hm,
      retryLoop_two_retryable_then_ok "NCBI" 300 up fs now _ _ h0 h1 r2 hu2
        h429 hnok]
    exact ⟨rfl, rfl, rfl, rfl⟩
  · intro up fg fs u now w b r2 hm h0 h1 hu2 hs
    have h429 : r2.status ≠ 429 := by omega
    have hnok : respNotOk r2.status = false := by
      simp only [respNotOk, hs]
      decide
    rw [proxy_modal_miss up fg fs u now w b hm,
      retryLoop_two_retryable_then_ok "Modal" 1800 up fs now _ _ h0 h1 r2 hu2
        h429 hnok]
    exact ⟨rfl, rfl, rfl, rfl⟩
  · intro up fg fs now w ep hh hm h0
    cases hc : (mgrGet fg now w (generate_cache_key "ucsc_proxy" [.s ep.url])).1 with
    | none =>
        cases hu : up 0 with
        | exn msg => constructor <;> simp [proxy_ucsc_endpoint, hh, hc, hu]
        | resp r =>
            have h5 : 500 ≤ r.status ∧ r.status < 600 := by
              simpa [retryableB, hu] using h0
            have hnok : respNotOk r.status = true := by
              simp only [respNotOk, Bool.and_eq_true, decide_eq_true_eq]
              omega
            constructor <;> simp [proxy_ucsc_endpoint, hh, hc, hu, hnok]
    | some v =>
        have hv : v.truthy = false := by simpa [truthyOpt, hc] using hm
        cases hu : up 0 with
        | exn msg => constructor <;> simp [proxy_ucsc_endpoint, hh, hc, hv, hu]
        | resp r =>
            have h5 : 500 ≤ r.status ∧ r.status < 600 := by
              simpa [retryableB, hu] using h0
            have hnok : respNotOk r.status = true := by
              simp only [respNotOk, Bool.and_eq_true, decide_eq_true_eq]
              omega
            constructor <;> simp [proxy_ucsc_endpoint, hh, hc, hv, hu, hnok]

/-- C3 witness: the amended retry policy evaluated against a concrete
upstream returning 500, 500, then 200, on a cold cache. -/
theorem C3_retry_linear_backoff_witness :
    (proxy_ncbi_endpoint
      (fun i => if i < 2
        then Fetch.resp ⟨500, "Internal Server Error", none, true, JsonVal.null, "boom"⟩
        else Fetch.resp ⟨200, "OK", none, true,
          JsonVal.obj [("ok", JsonVal.boolv true)], "body"⟩)
      ⟨true, false⟩ ⟨true, false⟩ 0 ⟨[], false, []⟩
      ⟨"https://eutils.ncbi.nlm.nih.gov/entrez/eutils/esearch.fcgi",
       some "eutils.ncbi.nlm.nih.gov"⟩).calls = 3 ∧
    (proxy_modal_endpoint
      (fun i => if i < 2
        then Fetch.resp ⟨500, "Internal Server Error", none, true, JsonVal.null, "boom"⟩
        else Fetch.resp ⟨200, "OK", none, true,
          JsonVal.obj [("ok", JsonVal.boolv true)], "body"⟩)
      ⟨true, false⟩ ⟨true, false⟩ (some "https://modal.example/analyze") 0
      ⟨[], false, []⟩ ⟨none, none, none, none, none⟩).calls = 3 ∧
    (proxy_ucsc_endpoint
      (fun i => if i < 2
        then Fetch.resp ⟨500, "Internal Server Error", none, true, JsonVal.null, "boom"⟩
        else Fetch.resp ⟨200, "OK", none, true,
          JsonVal.obj [("ok", JsonVal.boolv true)], "body"⟩)
      ⟨true, false⟩ ⟨true, false⟩ 0 ⟨[], false, []⟩
      ⟨"https://api.genome.ucsc.edu/getData/sequence",
       some "api.genome.ucsc.edu"⟩).calls = 1 :=
  ⟨(C3_retry_linear_backoff.1
      (fun i => if i < 2
        then Fetch.resp ⟨500, "Internal Server Error", none, true, JsonVal.null, "boom"⟩
        else Fetch.resp ⟨200, "OK", none, true,
          JsonVal.obj [("ok", JsonVal.boolv true)], "body"⟩)
      ⟨true, false⟩ ⟨true, false⟩ 0 ⟨[], false, []⟩
      ⟨"https://eutils.ncbi.nlm.nih.gov/entrez/eutils/esearch.fcgi",
       some "eutils.ncbi.nlm.nih.gov"⟩
      ⟨200, "OK", none, true, JsonVal.obj [("ok", JsonVal.boolv true)], "body"⟩
      (by decide) (by decide) (by decide) (by decide) rfl rfl).1,
   (C3_retry_linear_backoff.2.1
      (fun i => if i < 2
        then Fetch.resp ⟨500, "Internal Server Error", none, true, JsonVal.null, "boom"⟩
        else Fetch.resp ⟨200, "OK", none, true,
          JsonVal.obj [("ok", JsonVal.boolv true)], "body"⟩)
      ⟨true, false⟩ ⟨true, false⟩ "https://modal.example/analyze" 0
      ⟨[], false, []⟩ ⟨none, none, none, none, none⟩
      ⟨200, "OK", none, true, JsonVal.obj [("ok", JsonVal.boolv true)], "body"⟩
      (by decide) (by decide) (by decide) rfl rfl).1,
   (C3_retry_linear_backoff.2.2
      (fun i => if i < 2
        then Fetch.resp ⟨500, "Internal Server Error", none, true, JsonVal.null, "boom"⟩
        else Fetch.resp ⟨200, "OK", none, true,
          JsonVal.obj [("ok", JsonVal.boolv true)], "body"⟩)
      ⟨true, false⟩ ⟨true, false⟩ 0 ⟨[], false, []⟩
      ⟨"https://api.genome.ucsc.edu/getData/sequence",
       some "api.genome.ucsc.edu"⟩ rfl (by decide) (by decide)).1⟩

/- ------------------------------------------------------------------ -/
/- C10 - falsy cached documents are treated as misses                 -/
/- ------------------------------------------------------------------ -/

/-- C10: when the cache holds an unexpired but Python-falsy document (an
empty list, string or dict) under the looked-up key, the NCBI proxy and
the ClinVar cached API treat the lookup as a miss: the upstream is
contacted (at least one forward attempt; the run equals the forward loop's
run), and the value returned to the caller is the upstream-derived one,
not the cached document. -/
theorem C10_falsy_cached_is_miss :
    (∀ (up : Nat → Fetch) (fg fs : CallFlags) (now : Nat) (w : World)
      (ep : Endpoint) (v : JsonVal),
      hostAllowed ep ncbiAllowedHosts = true →
      (mgrGet fg now w (generate_cache_key "ncbi_proxy" [.s ep.url])).1 =
        some v →
      v.truthy = false →
      (proxy_ncbi_endpoint up fg fs now w ep).ret =
        (retryLoop "NCBI" 300 up fs now
          (generate_cache_key "ncbi_proxy" [.s ep.url]) 0 3 none
          (mgrGet fg now w (generate_cache_key "ncbi_proxy" [.s ep.url])).2
          0 []).ret ∧
      1 ≤ (proxy_ncbi_endpoint up fg fs now w ep).calls) ∧
    (∀ (fetched : List JsonVal) (fg fs : CallFlags) (now : Nat) (w : World)
      (chrom : String) (bmin bmax : Int) (genome : String) (v : JsonVal),
      (mgrGet fg now w (generate_cache_key "clinvar"
        [.s chrom, .s (toString bmin ++ "-" ++ toString bmax), .s genome])).1 =
        some v →
      v.truthy = false →
      (get_clinvar_variants fetched fg fs now w chrom bmin bmax genome).wentUpstream
        = true ∧
      (get_clinvar_variants fetched fg fs now w chrom bmin bmax genome).result =
        .arr fetched ∧
      (get_clinvar_variants fetched fg fs now w chrom bmin bmax genome).writes =
        [(generate_cache_key "clinvar"
            [.s chrom, .s (toString bmin ++ "-" ++ toString bmax), .s genome],
          JsonVal.arr fetched, CLINVAR_TTL)]) := by
  constructor
  · intro up fg fs now w ep v hh hc hv
    have hm : truthyOpt (mgrGet fg now w
        (generate_cache_key "ncbi_proxy" [.s ep.url])).1 = false := by
      simp [truthyOpt, hc, hv]
    rw [proxy_ncbi_miss up fg fs now w ep hh hm]
    refine ⟨rfl, ?_⟩
    simpa using retryLoop_calls_pos "NCBI" 300 up fs now
      (generate_cache_key "ncbi_proxy" [.s ep.url]) 2 0 none
      (mgrGet fg now w (generate_cache_key "ncbi_proxy" [.s ep.url])).2 0 []
  · intro fetched fg fs now w chrom bmin bmax genome v hc hv
    cases fetched with
    | nil => simp [get_clinvar_variants, hc, hv]
    | cons a as => simp [get_clinvar_variants, hc, hv]

/-- C10 witness: a cached empty list (the no-variants ClinVar result and an
empty NCBI payload) is bypassed and the upstream consulted again, well
inside the entry's TTL. -/
theorem C10_falsy_cached_is_miss_witness :
    ((JsonVal.arr []).truthy = false ∧
     1 ≤ (proxy_ncbi_endpoint (fun _ => Fetch.exn "down") ⟨true, false⟩
       ⟨true, false⟩ 0
       ⟨[(generate_cache_key "ncbi_proxy"
           [.s "https://eutils.ncbi.nlm.nih.gov/x"], JsonVal.arr [], 1000)],
         false, []⟩
       ⟨"https://eutils.ncbi.nlm.nih.gov/x",
        some "eutils.ncbi.nlm.nih.gov"⟩).calls) ∧
    (get_clinvar_variants [JsonVal.str "variant"] ⟨true, false⟩ ⟨true, false⟩ 0
      ⟨[(generate_cache_key "clinvar"
          [.s "chr17", .s (toString (43119000 : Int) ++ "-"
            ++ toString (43120000 : Int)), .s "hg38"], JsonVal.arr [], 1000)],
        false, []⟩
      "chr17" 43119000 43120000 "hg38").wentUpstream = true ∧
    (get_clinvar_variants [JsonVal.str "variant"] ⟨true, false⟩ ⟨true, false⟩ 0
      ⟨[(generate_cache_key "clinvar"
          [.s "chr17", .s (toString (43119000 : Int) ++ "-"
            ++ toString (43120000 : Int)), .s "hg38"], JsonVal.arr [], 1000)],
        false, []⟩
      "chr17" 43119000 43120000 "hg38").result = .arr [JsonVal.str "variant"] :=
  ⟨⟨rfl,
    (C10_falsy_cached_is_miss.1 (fun _ => Fetch.exn "down") ⟨true, false⟩
      ⟨true, false⟩ 0
      ⟨[(generate_cache_key "ncbi_proxy"
          [.s "https://eutils.ncbi.nlm.nih.gov/x"], JsonVal.arr [], 1000)],
        false, []⟩
      ⟨"https://eutils.ncbi.nlm.nih.gov/x", some "eutils.ncbi.nlm.nih.gov"⟩
      (JsonVal.arr []) (by decide) rfl rfl).2⟩,
   (C10_falsy_cached_is_miss.2 [JsonVal.str "variant"] ⟨true, false⟩
      ⟨true, false⟩ 0
      ⟨[(generate_cache_key "clinvar"
          [.s "chr17", .s (toString (43119000 : Int) ++ "-"
            ++ toString (43120000 : Int)), .s "hg38"], JsonVal.arr [], 1000)],
        false, []⟩
      "chr17" 43119000 43120000 "hg38" (JsonVal.arr []) rfl rfl).1,
   (C10_falsy_cached_is_miss.2 [JsonVal.str "variant"] ⟨true, false⟩
      ⟨true, false⟩ 0
      ⟨[(generate_cache_key "clinvar"
          [.s "chr17", .s (toString (43119000 : Int) ++ "-"
            ++ toString (43120000 : Int)), .s "hg38"], JsonVal.arr [], 1000)],
        false, []⟩
      "chr17" 43119000 43120000 "hg38" (JsonVal.arr []) rfl rfl).2.1⟩
